import Mathlib

/-!
Verification of the cross-boundary DOM locator resolution and action
execution engine (lib/handlers/handlerUtils/actHandlerUtils.ts).

The TypeScript source is shallowly embedded: pure computations become Lean
functions, the asynchronous in-page routines become explicit state passing
over small substrate models (query oracles, attribute stores, event traces),
and thrown exceptions become error values.  Time is idealized: the in-page
polling loop is modelled on a discrete 50 ms tick grid, so the attempt at
tick k happens at elapsed time 50 * k milliseconds.
-/

namespace Stagehand

/-! ## Path steps and CSS rendering

Embeds stepToCss, buildDirect, buildDesc and the IFRAME_STEP_RE test from
actHandlerUtils.ts.
-/

/-- JS String.prototype.toLowerCase, computed over the character list. -/
def jsToLower (s : String) : String :=
  String.mk (s.toList.map Char.toLower)

/-- JS String.prototype.trim: strip leading and trailing whitespace. -/
def jsTrim (s : String) : String :=
  String.mk
    (((s.toList.dropWhile Char.isWhitespace).reverse.dropWhile
      Char.isWhitespace).reverse)

/-- The groups of JS String.prototype.split with a one-character separator:
empty groups are kept, the empty string yields one empty group. -/
def splitCharList (sep : Char) : List Char → List (List Char)
  | [] => [[]]
  | c :: rest =>
    match splitCharList sep rest with
    | [] => [[]]
    | g :: gs => if c = sep then [] :: g :: gs else (c :: g) :: gs

/-- JS split on the slash character, as used on the step path. -/
def jsSplitSlash (s : String) : List String :=
  (splitCharList '/' s.toList).map String.mk

/-- JS startsWith for the one-character prefix slash. -/
def startsWithSlash (s : String) : Bool :=
  match s.toList with
  | '/' :: _ => true
  | _ => false

/-- Character class of the regex fragment [\w-]. -/
def isWordDashChar (c : Char) : Bool :=
  c.isAlphanum || c = '_' || c = '-'

/-- Match of the regex (written with carat) ([a-zA-Z*][\w-]*)(?:\[(\d+)])?$ used by
stepToCss: returns the tag and the optional bracketed ordinal. -/
def parseStepPattern (s : String) : Option (String × Option Nat) :=
  match s.toList with
  | [] => none
  | c :: rest =>
    if c.isAlpha || c = '*' then
      let tagRest := rest.takeWhile isWordDashChar
      let tag := String.mk (c :: tagRest)
      match rest.drop tagRest.length with
      | [] => some (tag, none)
      | '[' :: more =>
        let digits := more.takeWhile Char.isDigit
        if digits = [] then none
        else
          match more.drop digits.length with
          | [']'] => some (tag, (String.mk digits).toNat?)
          | _ => none
      | _ => none
    else none

/-- stepToCss: render one path step as CSS.  JS treats the ordinal 0 as falsy
(Number of the captured digits), hence the idx = 0 cases collapse to the
bare tag, exactly as in the source. -/
def stepToCss (step : String) : String :=
  match parseStepPattern step with
  | none => step
  | some (tag, idxRaw) =>
    let idx : Option Nat :=
      match idxRaw with
      | some n => if n = 0 then none else some n
      | none => none
    if tag = "*" then
      match idx with
      | some n => "*:nth-child(" ++ toString n ++ ")"
      | none => "*"
    else
      match idx with
      | some n => tag ++ ":nth-of-type(" ++ toString n ++ ")"
      | none => tag

/-- buildDirect: the direct-child query string (join with " > "). -/
def buildDirect (steps : List String) : String :=
  String.intercalate " > " (steps.map stepToCss)

/-- buildDesc: the descendant query string (join with " "). -/
def buildDesc (steps : List String) : String :=
  String.intercalate " " (steps.map stepToCss)

/-- IFRAME_STEP_RE: case-insensitive match of iframe optionally followed by
one bracketed attribute predicate (regex iframe(\[[^\]]+])?$ anchored on
both sides, flag i). -/
def isIframeStep (s : String) : Bool :=
  let l := (jsToLower s).toList
  if l.take 6 = ['i', 'f', 'r', 'a', 'm', 'e'] then
    match l.drop 6 with
    | [] => true
    | '[' :: more =>
      let inner := more.takeWhile (fun c => c ≠ ']')
      decide (inner ≠ []) && decide (more.drop inner.length = [']'])
    | _ => false
  else false

/-! ## The shadow boundary resolver (resolveShadowSegment)

The in-page routine run by hostLoc.evaluate is embedded against a substrate
model: the shadow root is a query oracle (what querySelector returns at each
50 ms tick), and the attribute store of the page is an association list.
-/

/-- A shadow root as seen by the routine: what root.querySelector(sel)
returns at tick k (node ids are natural numbers; none = no match).  The
oracle does not depend on the marker attribute store, which is faithful for
the tag-chain selectors built by buildDirect and buildDesc. -/
structure ShadowRootModel where
  query : Nat → String → Option Nat

/-- The host element: an open shadowRoot property, and the closed-root
backdoor registry entry (window.__stagehand__.getClosedRoot). -/
structure ShadowHostModel where
  openRoot : Option ShadowRootModel
  closedRoot : Option ShadowRootModel

/-- host.shadowRoot ?? backdoor?.getClosedRoot?.(host) -/
def getRoot (h : ShadowHostModel) : Option ShadowRootModel :=
  match h.openRoot with
  | some r => some r
  | none => h.closedRoot

/-- The marker attributes written on page nodes: (node id, attribute name,
value) with the most recent write first. -/
abbrev AttrState := List (Nat × String × String)

/-- el.getAttribute(attr), none when the attribute is absent. -/
def getAttr : AttrState → Nat → String → Option String
  | [], _, _ => none
  | (n, a, v) :: rest, node, attr =>
    if n = node ∧ a = attr then some v else getAttr rest node attr

/-- el.setAttribute(attr, v). -/
def setAttr (s : AttrState) (node : Nat) (attr v : String) : AttrState :=
  (node, attr, v) :: s

/-- The generated marker value: the source concatenates the literal sh_
with Math.random and Date.now rendered in base 36; gen abstracts that
random-plus-timestamp suffix (it may differ at every tick). -/
def freshMarker (gen : Nat → String) (k : Nat) : String :=
  "sh_" ++ gen k

/-- The mark closure of the routine: reuse the existing attribute value when
present, otherwise generate and write one.  JS takes the empty string as
falsy, so an empty existing value is also regenerated. -/
def mark (freshVal : String) (attr : String) (s : AttrState) (el : Nat) :
    String × AttrState :=
  match getAttr s el attr with
  | some v => if v = "" then (freshVal, setAttr s el attr freshVal) else (v, s)
  | none => (freshVal, setAttr s el attr freshVal)

/-- The tryFind closure: root.querySelector(direct) ?? root.querySelector(desc)
at tick k, paired with the list of queries issued in order (the descendant
query is only issued when the direct-child query returns null). -/
def tryFindQ (r : ShadowRootModel) (direct desc : String) (k : Nat) :
    Option Nat × List String :=
  match r.query k direct with
  | some n => (some n, [direct])
  | none => (r.query k desc, [direct, desc])

/-- The tick loop of the routine, on the idealized 50 ms grid: try at tick k;
on a find resolve it; otherwise stop once the elapsed time 50 * k has
reached the timeout, else re-try 50 ms later.  The fuel argument is a
structural bound on the recursion; pollFind below supplies enough for the
timeout check to fire first.  Returns the find (node and tick) and the
trace of attempts (tick, queries issued). -/
def pollFindFuel (q : Nat → Option Nat × List String) (timeout : Nat) :
    Nat → Nat → Option (Nat × Nat) × List (Nat × List String)
  | _, 0 => (none, [])
  | k, fuel + 1 =>
    match q k with
    | (some n, qs) => (some (n, k), [(k, qs)])
    | (none, qs) =>
      if timeout ≤ 50 * k then (none, [(k, qs)])
      else
        let p := pollFindFuel q timeout (k + 1) fuel
        (p.1, (k, qs) :: p.2)

/-- The polling loop started at tick 0 (the immediate first attempt of the
source and the immediately-invoked tick() both fall on tick 0 of the
idealized grid).  timeout + 1 ticks always suffice, since the loop stops at
the first tick k with 50 * k at or beyond the timeout. -/
def pollFind (q : Nat → Option Nat × List String) (timeout : Nat) :
    Option (Nat × Nat) × List (Nat × List String) :=
  pollFindFuel q timeout 0 (timeout + 1)

/-- The error taxonomy of the resolver, as raised by actHandlerUtils.ts.
Each constructor carries the message string passed to the corresponding
error class constructor. -/
inductive ShadowError where
  | shadowRootMissing (msg : String)
  | shadowSegmentNotFound (path : String)
  | shadowSegmentEmpty
deriving DecidableEq, Repr

/-- Outcome of resolveShadowSegment: the result (ok carries the marker id
from which the returned locator stagehand=id is built), the attribute store
after the call, and the instrumented attempt trace of the polling loop. -/
structure ResolveOutcome where
  result : Except ShadowError String
  state : AttrState
  attempts : List (Nat × List String)
deriving Repr

/-- The custom locator scheme selector built from a marker id. -/
def markerLocator (id : String) : String := "stagehand=" ++ id

/-- resolveShadowSegment of actHandlerUtils.ts: build the two candidate
queries, obtain the shadow root (open property first, then the closed-root
backdoor), poll for the target, mark it, and return the marker; with no
root fail with ShadowRootMissing (message segment=(the joined path)), on
timeout fail with ShadowSegmentNotFound carrying the joined path. -/
def resolveShadowSegment (host : ShadowHostModel) (gen : Nat → String)
    (st : AttrState) (shadowSteps : List String)
    (attr : String := "data-__stagehand-id") (timeout : Nat := 1500) :
    ResolveOutcome :=
  match getRoot host with
  | none =>
    ⟨.error (.shadowRootMissing
        ("segment='" ++ String.intercalate "/" shadowSteps ++ "'")), st, []⟩
  | some r =>
    match pollFind (tryFindQ r (buildDirect shadowSteps)
        (buildDesc shadowSteps)) timeout with
    | (some (el, k), tr) =>
      ⟨.ok (mark (freshMarker gen k) attr st el).1,
        (mark (freshMarker gen k) attr st el).2, tr⟩
    | (none, tr) =>
      ⟨.error (.shadowSegmentNotFound (String.intercalate "/" shadowSteps)),
        st, tr⟩

/-! ## deepLocatorWithShadow

The resolution context (Playwright Page / FrameLocator / Locator chain) is
embedded as a tree of selector applications; the awaited sub-call to
resolveShadowSegment is abstracted as an oracle env from the host context
and the collected segment to the marker id it resolves to (or the error it
throws), since its in-page behaviour is the substrate DOM.
-/

/-- The evolving scope of a resolution: the starting Page or FrameLocator
root, and the chain of frameLocator / locator applications made on it. -/
inductive Ctx where
  | root
  | frame (parent : Ctx) (sel : String)
  | loc (parent : Ctx) (sel : String)
deriving DecidableEq, Repr

/-- The xp helper: relative path prefix once element-scoped, absolute
otherwise. -/
def xpSel (elementScoped : Bool) : String :=
  if elementScoped then "xpath=./" else "xpath=/"

/-- One token fails this exactly when the segment-collection loop of the
shadow-hop branch stops at it (another shadow hop or an iframe step). -/
def isSegStep (t : String) : Bool :=
  !(t = "" || isIframeStep t)

/-- The token loop of deepLocatorWithShadow, over the tokens after the
leading empty one: carries the current context, the buffer of unflushed DOM
steps and the elementScoped flag.  The shadow-hop branch flushes the buffer
into a locator, collects the segment up to the next hop or iframe step or
the end, fails with ShadowSegmentEmpty when it is empty, and otherwise
continues past it from the marker locator returned by env. -/
def deepLoop (env : Ctx → List String → Except ShadowError String) :
    List String → Ctx → List String → Bool → Except ShadowError Ctx
  | [], ctx, buffer, es =>
    if buffer = [] then
      if es then .ok ctx else .ok (.loc ctx "xpath=/")
    else .ok (.loc ctx (xpSel es ++ String.intercalate "/" buffer))
  | step :: rest, ctx, buffer, es =>
    if step = "" then
      let hostCtx :=
        if buffer = [] then ctx
        else Ctx.loc ctx (xpSel es ++ String.intercalate "/" buffer)
      let seg := rest.takeWhile isSegStep
      if seg = [] then .error .shadowSegmentEmpty
      else
        match env hostCtx seg with
        | .error e => .error e
        | .ok id =>
          deepLoop env (rest.drop seg.length) (.loc hostCtx (markerLocator id))
            [] true
    else
      let buffer1 := buffer ++ [step]
      if isIframeStep step then
        deepLoop env rest
          (.frame ctx (xpSel es ++ String.intercalate "/" buffer1)) [] false
      else deepLoop env rest ctx buffer1 es
termination_by toks _ _ _ => toks.length
decreasing_by
  all_goals simp [List.length_drop]
  all_goals omega

/-- deepLocatorWithShadow: normalize the path to start with a slash, split
on slashes keeping empty tokens, and run the token loop from index 1 with a
page-scoped context and an empty buffer. -/
def deepLocatorWithShadow (env : Ctx → List String → Except ShadowError String)
    (xpath : String) : Except ShadowError Ctx :=
  let x := if startsWithSlash xpath then xpath else "/" ++ xpath
  deepLoop env ((jsSplitSlash x).drop 1) .root [] false

/-- A token list contains a shadow hop immediately followed by another hop
(shadow or iframe) or by the end of the path. -/
def malformedHopTokens : List String → Bool
  | [] => false
  | [s] => s = ""
  | s :: t :: rest =>
    (s = "" && (t = "" || isIframeStep t)) || malformedHopTokens (t :: rest)

/-! ## scrollElementToPercentage

The in-page computation of the target offset.  JS numbers are modelled as
rationals; the parseFloat of the cleaned argument (trimmed, percent sign
removed) is abstracted to its exact numeric value, none standing for NaN.
-/

/-- parsePercent after parseFloat: NaN becomes 0, otherwise
Math.max(0, Math.min(num, 100)). -/
def parsePercent (num : Option ℚ) : ℚ :=
  match num with
  | none => 0
  | some n => max 0 (min n 100)

/-- The geometry the routine reads: whether the element is the root html
element, document.body.scrollHeight and window.innerHeight (used in the
html branch), and the scrollHeight and clientHeight of the element itself
(used otherwise). -/
structure ScrollTargetModel where
  isHtml : Bool
  bodyScrollHeight : ℚ
  innerHeight : ℚ
  scrollHeight : ℚ
  clientHeight : ℚ

/-- The target scrollTop computed by scrollElementToPercentage and passed
to window.scrollTo or element.scrollTo. -/
def scrollTargetTop (el : ScrollTargetModel) (yArg : Option ℚ) : ℚ :=
  let yPct := parsePercent yArg
  if el.isHtml then (el.bodyScrollHeight - el.innerHeight) * (yPct / 100)
  else (el.scrollHeight - el.clientHeight) * (yPct / 100)

/-! ## fillOrType

The handler is embedded as the trace of substrate operations it performs on
the happy path (the getAttribute and count reads are absorbed into the
FillTarget model; every keyboard press carries a swallowing catch in the
source, so presses are always attempted in order).
-/

/-- What the combobox probe reads from the target: the role and
aria-autocomplete attributes of the element (none = absent, also the result
of a swallowed read failure), and whether the ancestor-or-self XPath query
for role combobox matched at least one node. -/
structure FillTarget where
  roleAttr : Option String
  ariaAutocomplete : Option String
  hasComboAncestor : Bool

/-- The isCombobox predicate of fillOrType: a combobox ancestor-or-self, or
role combobox on the element, or aria-autocomplete list or both (attribute
reads lower-cased, absent read as the empty string). -/
def isComboboxLike (el : FillTarget) : Bool :=
  let roleSelf := jsToLower (el.roleAttr.getD "")
  let autoSelf := jsToLower (el.ariaAutocomplete.getD "")
  el.hasComboAncestor || roleSelf = "combobox" || autoSelf = "list" ||
    autoSelf = "both"

/-- Substrate operations of the fill handler, in order of execution. -/
inductive FillEvent where
  | fill (text : String)
  | focus
  | press (key : String)
deriving DecidableEq, Repr

/-- Whether a fill-handler event is a key press. -/
def isKeyEvent : FillEvent → Bool
  | .press _ => true
  | _ => false

/-- fillOrType: clear the field (fill with the empty string, forced), fill
the argument text, and when the target is combobox-like focus it and send
Enter, ArrowDown, Enter on the page keyboard; otherwise send nothing
further. -/
def fillOrType (el : FillTarget) (args : List String) : List FillEvent :=
  let text := args.headD ""
  [FillEvent.fill "", FillEvent.fill text] ++
    (if isComboboxLike el then
      [FillEvent.focus, FillEvent.press "Enter", FillEvent.press "ArrowDown",
        FillEvent.press "Enter"]
    else [])

/-! ## selectOption: the missing-argument guard

Only the guard at the top of the handler decides claim C10: the wanted text
is computed from the first argument and the handler throws before touching
the page when it trims to nothing.  The remainder of the handler (native
select fast path and the ARIA keyboard-first protocol) is abstracted as an
oracle that maps the arguments to the trace and outcome it would produce;
the guard theorem shows that oracle is never consulted.  String.trim models
the JS trim of whitespace.
-/

/-- The command-failure error of the action layer
(PlaywrightCommandException carries only a message). -/
inductive CmdError where
  | playwrightCommand (msg : String)
deriving DecidableEq, Repr

/-- Substrate operations a select handler may perform against the page. -/
inductive SelectEvent where
  | click
  | focus
  | press (key : String)
  | fill (text : String)
  | typeText (text : String)
  | evalScript
  | scrollIntoView
deriving DecidableEq, Repr

/-- (args?.[0] ?? "").toString().trim() — list entries model possibly
undefined argument slots. -/
def selectWanted (args : List (Option String)) : String :=
  jsTrim ((args.headD none).getD "")

/-- selectOption: the guard throws selectOption: missing option text when
the wanted text is empty, before any page interaction; rest stands for the
remainder of the handler. -/
def selectOption
    (rest : List (Option String) → List SelectEvent × Option CmdError)
    (args : List (Option String)) : List SelectEvent × Option CmdError :=
  let wanted := selectWanted args
  if wanted = "" then
    ([], some (.playwrightCommand "selectOption: missing option text"))
  else rest args

/-! ## The navigation watcher and clickElement

handlePossiblePageNavigation is embedded over a substrate model giving the
outcome of each awaited suspension point: the 1500 ms race for a new page,
the waitForLoadState call, and the settled-DOM wait.  Logger calls are
diagnostic output and are not modelled.
-/

/-- A newly opened page as the race observes it (its url() value). -/
structure TabModel where
  url : String
deriving DecidableEq, Repr

/-- Substrate behaviour of one navigation check: the race outcome (some
page when the page event fired within the window, none on the 1500 ms
timeout; the race promise only ever resolves, so this point cannot fail),
whether waitForLoadState on the original page rejects (some message) or
resolves (none), and likewise for the settled-DOM wait. -/
structure NavSubstrate where
  newTab : Option TabModel
  loadStateErr : Option String
  settleErr : Option String
deriving DecidableEq, Repr

/-- Which page a substrate wait is issued against. -/
inductive PageRef where
  | original
  | newTab
deriving DecidableEq, Repr

/-- The awaited suspension points of the watcher, in order. -/
inductive NavEvent where
  | raceNewTab (capMs : Nat)
  | waitLoadState (p : PageRef) (state : String)
  | waitSettledDom
deriving DecidableEq, Repr

/-- What one run of the watcher did and whether an error escaped it to the
caller (none = returned normally). -/
structure NavOutcome where
  events : List NavEvent
  err : Option String
deriving DecidableEq, Repr

/-- handlePossiblePageNavigation: race the page event against 1500 ms; when
a new tab with a url other than about:blank was caught, await
waitForLoadState(domcontentloaded) on stagehandPage.page — the original
page — with no surrounding try/catch, so a rejection there escapes; then
await the settled-DOM wait inside try/catch (its failure is logged and
swallowed); finally compare URLs (logging only). -/
def handlePossiblePageNavigation (sub : NavSubstrate) : NavOutcome :=
  let raced := [NavEvent.raceNewTab 1500]
  match sub.newTab with
  | some t =>
    if t.url ≠ "about:blank" then
      match sub.loadStateErr with
      | some msg =>
        ⟨raced ++ [.waitLoadState .original "domcontentloaded"], some msg⟩
      | none =>
        ⟨raced ++ [.waitLoadState .original "domcontentloaded",
          .waitSettledDom], none⟩
    else ⟨raced ++ [.waitSettledDom], none⟩
  | none => ⟨raced ++ [.waitSettledDom], none⟩

/-- An event of the watcher trace waits on the newly opened tab. -/
def waitsOnNewTab : NavEvent → Bool
  | .waitLoadState .newTab _ => true
  | _ => false

/-- Substrate behaviour of one clickElement run: whether the native
locator.click rejects (some message) or resolves, likewise the JS-click
evaluate, and the behaviour of the navigation check that follows a
successful click. -/
structure ClickSubstrate where
  nativeErr : Option String
  jsErr : Option String
  nav : NavSubstrate
deriving DecidableEq, Repr

/-- The attempts and waits of one clickElement run. -/
inductive ClickEvent where
  | nativeClick (timeoutMs : Nat)
  | jsClick (timeoutMs : Nat)
  | navCheck (e : NavEvent)
deriving DecidableEq, Repr

/-- An error escaping clickElement: the StagehandClickError raised when
both clicks fail (carrying the xpath and the underlying message of the JS
fallback failure), or an error propagated out of the navigation check. -/
inductive ClickError where
  | clickFailed (xpath msg : String)
  | fromNavigation (msg : String)
deriving DecidableEq, Repr

/-- What one run of clickElement did and whether an error escaped. -/
structure ClickOutcome where
  events : List ClickEvent
  err : Option ClickError
deriving DecidableEq, Repr

/-- clickElement: try the native click with a 3500 ms timeout; on failure
try the JS click (locator.evaluate of el.click, 3500 ms timeout); when that
also fails raise StagehandClickError with the underlying message; after a
successful click run handlePossiblePageNavigation, whose escaping error (if
any) propagates. -/
def clickElement (sub : ClickSubstrate) (xpath : String) : ClickOutcome :=
  match sub.nativeErr with
  | none =>
    let nav := handlePossiblePageNavigation sub.nav
    ⟨[ClickEvent.nativeClick 3500] ++ nav.events.map .navCheck,
      nav.err.map .fromNavigation⟩
  | some _ =>
    match sub.jsErr with
    | none =>
      let nav := handlePossiblePageNavigation sub.nav
      ⟨[ClickEvent.nativeClick 3500, ClickEvent.jsClick 3500] ++
        nav.events.map .navCheck, nav.err.map .fromNavigation⟩
    | some e2 =>
      ⟨[ClickEvent.nativeClick 3500, ClickEvent.jsClick 3500],
        some (.clickFailed xpath e2)⟩

/-! ## Theorems -/

/-- The polling loop when no attempt ever finds the target: the result is
none, and the attempt trace consists of the consecutive ticks from k, each
issuing the same queries, whose last tick is the first to reach the
timeout. -/
theorem pollFindFuel_no_match (q : Nat → Option Nat × List String)
    (timeout : Nat) (qs : List String) (hq : ∀ k, q k = (none, qs)) :
    ∀ fuel k, timeout ≤ 50 * k + 50 * fuel →
    ∃ n, pollFindFuel q timeout k (fuel + 1) =
        (none, (List.range' k n).map (fun i => (i, qs))) ∧
      1 ≤ n ∧ timeout ≤ 50 * (k + n - 1) ∧
      ∀ j, j + 1 < n → 50 * (k + j) < timeout := by
  intro fuel
  induction fuel with
  | zero =>
    intro k hk
    have hk' : timeout ≤ 50 * k := by omega
    refine ⟨1, ?_, le_refl 1, by simpa using hk', fun j hj => by omega⟩
    simp [pollFindFuel, hq k, hk']
  | succ fuel ih =>
    intro k hk
    by_cases hstop : timeout ≤ 50 * k
    · refine ⟨1, ?_, le_refl 1, by simpa using hstop, fun j hj => by omega⟩
      rw [pollFindFuel.eq_def]
      simp [hq k, hstop]
    · obtain ⟨n, heq, hn1, hlast, hmid⟩ := ih (k + 1) (by omega)
      refine ⟨n + 1, ?_, by omega, by omega, ?_⟩
      · rw [pollFindFuel.eq_def]
        simp only [hq k]
        rw [if_neg hstop]
        rw [List.range'_succ]
        simp [heq]
      · intro j hj
        cases j with
        | zero => simpa using lt_of_not_ge hstop
        | succ j' =>
          have := hmid j' (by omega)
          omega

/-- C4: when the host element has neither an open shadowRoot nor an entry in
the closed-root backdoor registry, resolveShadowSegment fails with the
ShadowRootMissing error whose message includes the joined segment path, the
attribute store is returned unchanged (no marker written on any node), and
no query attempt is made. -/
theorem resolveShadowSegment_shadowRootMissing
    (host : ShadowHostModel) (gen : Nat → String) (st : AttrState)
    (steps : List String) (attr : String) (timeout : Nat)
    (h1 : host.openRoot = none) (h2 : host.closedRoot = none) :
    resolveShadowSegment host gen st steps attr timeout =
      ⟨.error (.shadowRootMissing
        ("segment='" ++ String.intercalate "/" steps ++ "'")), st, []⟩ := by
  simp [resolveShadowSegment, getRoot, h1, h2]

/-- Witness for C4: a host with no open root and no backdoor entry, resolved
against the segment combo-widget/button. -/
theorem resolveShadowSegment_shadowRootMissing_witness :
    (⟨none, none⟩ : ShadowHostModel).openRoot = none ∧
    (⟨none, none⟩ : ShadowHostModel).closedRoot = none ∧
    resolveShadowSegment ⟨none, none⟩ (fun _ => "r4nd0m") []
        ["combo-widget", "button"] "data-__stagehand-id" 1500 =
      ⟨.error (.shadowRootMissing "segment='combo-widget/button'"), [], []⟩ :=
  ⟨rfl, rfl,
    resolveShadowSegment_shadowRootMissing ⟨none, none⟩ (fun _ => "r4nd0m") []
      ["combo-widget", "button"] "data-__stagehand-id" 1500 rfl rfl⟩

/-- C6: when the shadow root exists but neither the direct-child query nor
the descendant query ever matches, the resolver fails with
ShadowSegmentNotFound carrying the joined segment path, leaves the
attribute store unchanged, and its attempts are the consecutive 50 ms ticks
from 0 — each issuing the direct-child query first and the descendant query
second — stopping at the first tick whose elapsed time reaches the
(configurable, default 1500 ms) timeout. -/
theorem resolveShadowSegment_poll_until_timeout
    (host : ShadowHostModel) (r : ShadowRootModel) (gen : Nat → String)
    (st : AttrState) (steps : List String) (attr : String) (timeout : Nat)
    (hroot : getRoot host = some r)
    (hq : ∀ k, r.query k (buildDirect steps) = none ∧
      r.query k (buildDesc steps) = none) :
    (resolveShadowSegment host gen st steps attr timeout).result =
      .error (.shadowSegmentNotFound (String.intercalate "/" steps)) ∧
    (resolveShadowSegment host gen st steps attr timeout).state = st ∧
    ∃ n, (resolveShadowSegment host gen st steps attr timeout).attempts =
        (List.range' 0 n).map
          (fun i => (i, [buildDirect steps, buildDesc steps])) ∧
      1 ≤ n ∧ timeout ≤ 50 * (n - 1) ∧
      ∀ j, j + 1 < n → 50 * j < timeout := by
  have hq' : ∀ k, tryFindQ r (buildDirect steps) (buildDesc steps) k =
      (none, [buildDirect steps, buildDesc steps]) := fun k => by
    simp [tryFindQ, (hq k).1, (hq k).2]
  obtain ⟨n, heq, hn1, hlast, hmid⟩ :=
    pollFindFuel_no_match _ timeout _ hq' timeout 0 (by omega)
  refine ⟨?_, ?_, n, ?_, hn1, by simpa using hlast,
    fun j hj => by simpa using hmid j hj⟩ <;>
    simp [resolveShadowSegment, hroot, pollFind, heq]

/-- Witness for C6: a shadow root whose queries never match anything, with
the default attribute name and timeout. -/
theorem resolveShadowSegment_poll_until_timeout_witness :
    (resolveShadowSegment ⟨some ⟨fun _ _ => none⟩, none⟩ (fun _ => "g") []
        ["div"] "data-__stagehand-id" 1500).result =
      .error (.shadowSegmentNotFound "div") :=
  (resolveShadowSegment_poll_until_timeout ⟨some ⟨fun _ _ => none⟩, none⟩
    ⟨fun _ _ => none⟩ (fun _ => "g") [] ["div"] "data-__stagehand-id" 1500
    rfl (fun _ => ⟨rfl, rfl⟩)).1

/-- Reading back the attribute the mark closure just ensured. -/
theorem getAttr_setAttr_self (s : AttrState) (e : Nat) (a v : String) :
    getAttr (setAttr s e a v) e a = some v := by
  simp [getAttr, setAttr]

/-- The mark closure leaves the marked node carrying the returned value. -/
theorem mark_getAttr (f a : String) (s : AttrState) (e : Nat) :
    getAttr (mark f a s e).2 e a = some (mark f a s e).1 := by
  unfold mark
  cases h : getAttr s e a with
  | none => simp [getAttr_setAttr_self]
  | some v =>
    by_cases hv : v = ""
    · simp [hv, getAttr_setAttr_self]
    · simp [hv, h]

/-- The value the mark closure returns is never empty when the fresh value
is not. -/
theorem mark_ne_empty (f a : String) (s : AttrState) (e : Nat)
    (hf : f ≠ "") : (mark f a s e).1 ≠ "" := by
  unfold mark
  cases h : getAttr s e a with
  | none => simpa using hf
  | some v => by_cases hv : v = "" <;> simp [hv, hf]

/-- A node already carrying a non-empty marker value is not re-marked: the
existing value is returned and the store is untouched. -/
theorem mark_reuse (f a : String) (s : AttrState) (e : Nat) (v : String)
    (h : getAttr s e a = some v) (hv : v ≠ "") : mark f a s e = (v, s) := by
  simp [mark, h, hv]

/-- Generated markers carry the sh_ prefix and are never empty. -/
theorem freshMarker_ne_empty (gen : Nat → String) (k : Nat) :
    freshMarker gen k ≠ "" := by
  intro h
  have := congrArg String.data h
  simp [freshMarker] at this

/-- C7: marker assignment is idempotent.  When a resolution succeeds with
marker id and store st1, resolving the same segment again against the
unchanged DOM — with an arbitrary new randomness source — finds the same
node at the same tick, reuses the marker already on it instead of
generating a new one, returns the same id (hence the same stagehand=id
locator) and leaves the store unchanged. -/
theorem resolveShadowSegment_marker_reuse
    (host : ShadowHostModel) (gen1 gen2 : Nat → String) (st st1 : AttrState)
    (steps : List String) (attr : String) (timeout : Nat) (id : String)
    (tr : List (Nat × List String))
    (h : resolveShadowSegment host gen1 st steps attr timeout =
      ⟨.ok id, st1, tr⟩) :
    resolveShadowSegment host gen2 st1 steps attr timeout =
      ⟨.ok id, st1, tr⟩ := by
  unfold resolveShadowSegment at h ⊢
  split at h
  next heq => exact Except.noConfusion (congrArg ResolveOutcome.result h)
  next r heq =>
    split at h
    next el k tr2 heq2 =>
      injection h with h1 h2 h3
      injection h1 with hid
      subst h3
      have hmem : getAttr st1 el attr = some id := by
        rw [← h2, ← hid]; exact mark_getAttr _ _ _ _
      have hne : id ≠ "" := by
        rw [← hid]
        exact mark_ne_empty _ _ _ _ (freshMarker_ne_empty gen1 k)
      rw [mark_reuse (freshMarker gen2 k) attr st1 el id hmem hne]
    next tr2 heq2 =>
      exact Except.noConfusion (congrArg ResolveOutcome.result h)

/-- Witness for C7: a first resolution that marked node 7 with sh_abc; the
second resolution with fresh randomness returns the same marker and store
(the hypothesis of the theorem is discharged by evaluation). -/
theorem resolveShadowSegment_marker_reuse_witness :
    resolveShadowSegment ⟨some ⟨fun _ _ => some 7⟩, none⟩ (fun _ => "zzz")
        [(7, "data-__stagehand-id", "sh_abc")] ["div"] "data-__stagehand-id"
        1500 =
      ⟨.ok "sh_abc", [(7, "data-__stagehand-id", "sh_abc")], [(0, ["div"])]⟩ :=
  resolveShadowSegment_marker_reuse ⟨some ⟨fun _ _ => some 7⟩, none⟩
    (fun _ => "abc") (fun _ => "zzz") [] [(7, "data-__stagehand-id", "sh_abc")]
    ["div"] "data-__stagehand-id" 1500 "sh_abc" [(0, ["div"])] rfl

/-- A malformed hop in a token list survives dropping the longest prefix of
plain segment steps. -/
theorem malformed_drop_takeWhile (l : List String)
    (h : malformedHopTokens l = true) :
    malformedHopTokens (l.drop (l.takeWhile isSegStep).length) = true := by
  induction l with
  | nil => simp [malformedHopTokens] at h
  | cons s rest ih =>
    by_cases hs : isSegStep s
    · rw [List.takeWhile_cons_of_pos hs]
      simp only [List.length_cons, List.drop_succ_cons]
      apply ih
      have hs' : ¬(s = "" || isIframeStep s) := by
        simpa [isSegStep] using hs
      cases rest with
      | nil =>
        exfalso
        simp [malformedHopTokens] at h
        simp [h] at hs'
      | cons t rs =>
        simp only [malformedHopTokens, Bool.or_eq_true, Bool.and_eq_true] at h
        rcases h with ⟨h1, _⟩ | h2
        · exfalso
          simp [decide_eq_true_eq] at h1
          simp [h1] at hs'
        · exact h2
    · rw [List.takeWhile_cons_of_neg hs]
      simpa using h

/-- One unfolding of the token loop at a cons cell, with the let bindings
of the body inlined. -/
theorem deepLoop_cons (env : Ctx → List String → Except ShadowError String)
    (step : String) (rest : List String) (ctx : Ctx) (buffer : List String)
    (es : Bool) :
    deepLoop env (step :: rest) ctx buffer es =
      if step = "" then
        if rest.takeWhile isSegStep = [] then .error .shadowSegmentEmpty
        else
          match env
            (if buffer = [] then ctx
              else Ctx.loc ctx (xpSel es ++ String.intercalate "/" buffer))
            (rest.takeWhile isSegStep) with
          | .error e => .error e
          | .ok id =>
            deepLoop env (rest.drop (rest.takeWhile isSegStep).length)
              (.loc
                (if buffer = [] then ctx
                  else Ctx.loc ctx (xpSel es ++ String.intercalate "/" buffer))
                (markerLocator id)) [] true
      else
        if isIframeStep step then
          deepLoop env rest
            (.frame ctx (xpSel es ++ String.intercalate "/" (buffer ++ [step])))
            [] false
        else deepLoop env rest ctx (buffer ++ [step]) es := by
  rw [deepLoop.eq_def]

/-- When the shadow-segment oracle always succeeds, the token loop fails
with ShadowSegmentEmpty on every token list containing a malformed hop,
whatever the context, buffer and scope flag. -/
theorem deepLoop_malformed (env : Ctx → List String → Except ShadowError String)
    (henv : ∀ c seg, ∃ id, env c seg = .ok id) :
    ∀ (n : Nat) (toks : List String) (ctx : Ctx) (buffer : List String)
      (es : Bool), toks.length ≤ n → malformedHopTokens toks = true →
      deepLoop env toks ctx buffer es = .error .shadowSegmentEmpty := by
  intro n
  induction n with
  | zero =>
    intro toks ctx buffer es hlen hmal
    have : toks = [] := List.length_eq_zero.mp (Nat.le_zero.mp hlen)
    subst this
    simp [malformedHopTokens] at hmal
  | succ n ih =>
    intro toks ctx buffer es hlen hmal
    cases toks with
    | nil => simp [malformedHopTokens] at hmal
    | cons s rest =>
      by_cases hs : s = ""
      · subst hs
        cases rest with
        | nil => rw [deepLoop_cons]; rfl
        | cons t rs =>
          by_cases ht : isSegStep t
          · have hmal2 : malformedHopTokens (t :: rs) = true := by
              have ht' : ¬(t = "" || isIframeStep t) = true := by
                simpa [isSegStep] using ht
              simp only [malformedHopTokens, Bool.or_eq_true,
                Bool.and_eq_true] at hmal
              rcases hmal with ⟨_, h2⟩ | h2
              · exact absurd h2 (by simpa using ht')
              · exact h2
            have hdrop : malformedHopTokens
                ((t :: rs).drop ((t :: rs).takeWhile isSegStep).length) =
                true := malformed_drop_takeWhile _ hmal2
            have hne : (t :: rs).takeWhile isSegStep ≠ [] := by
              rw [List.takeWhile_cons_of_pos ht]; simp
            have hlen2 :
                ((t :: rs).drop ((t :: rs).takeWhile isSegStep).length).length
                  ≤ n := by
              rw [List.length_drop]
              simp only [List.length_cons] at hlen ⊢
              omega
            obtain ⟨id, hid⟩ := henv
              (if buffer = [] then ctx
                else Ctx.loc ctx (xpSel es ++ String.intercalate "/" buffer))
              ((t :: rs).takeWhile isSegStep)
            rw [deepLoop_cons, if_pos rfl, if_neg hne, hid]
            exact ih _ _ _ _ hlen2 hdrop
          · have hseg0 : (t :: rs).takeWhile isSegStep = [] :=
              List.takeWhile_cons_of_neg ht
            rw [deepLoop_cons, if_pos rfl, if_pos hseg0]
      · cases rest with
        | nil =>
          exfalso
          simp only [malformedHopTokens, decide_eq_true_eq] at hmal
          exact hs hmal
        | cons t rs =>
          have hmal2 : malformedHopTokens (t :: rs) = true := by
            simp only [malformedHopTokens, Bool.or_eq_true,
              Bool.and_eq_true] at hmal
            rcases hmal with ⟨h1, _⟩ | h2
            · exact absurd (by simpa using h1) hs
            · exact h2
          have hlen2 : (t :: rs).length ≤ n := by
            simp only [List.length_cons] at hlen ⊢
            omega
          rw [deepLoop_cons, if_neg hs]
          by_cases hi : isIframeStep s = true
          · rw [if_pos hi]
            exact ih _ _ _ _ hlen2 hmal2
          · rw [if_neg hi]
            exact ih _ _ _ _ hlen2 hmal2

/-- C5: whenever the token list of the normalized path contains a shadow hop
immediately followed by another hop (shadow or iframe) or by the end of the
path with no intervening DOM steps, deepLocatorWithShadow fails with
ShadowSegmentEmpty — even when every shadow segment the substrate is asked
to resolve succeeds — and in particular never resolves to the host element
itself. -/
theorem deepLocatorWithShadow_empty_segment_fails
    (env : Ctx → List String → Except ShadowError String) (xpath : String)
    (henv : ∀ c seg, ∃ id, env c seg = .ok id)
    (hmal : malformedHopTokens
      ((jsSplitSlash (if startsWithSlash xpath then xpath
        else "/" ++ xpath)).drop 1) = true) :
    deepLocatorWithShadow env xpath = .error .shadowSegmentEmpty := by
  unfold deepLocatorWithShadow
  exact deepLoop_malformed env henv _ _ .root [] false (le_refl _) hmal

/-- Witness for C5: the path /div// ends in a shadow hop with no segment
steps; with a substrate oracle that would resolve any segment, resolution
still fails with ShadowSegmentEmpty. -/
theorem deepLocatorWithShadow_empty_segment_fails_witness :
    deepLocatorWithShadow (fun _ _ => .ok "m") "/div//" =
      .error .shadowSegmentEmpty :=
  deepLocatorWithShadow_empty_segment_fails (fun _ _ => .ok "m") "/div//"
    (fun _ _ => ⟨"m", rfl⟩) (by decide)

/-- C8: the percentage argument is clamped to the interval from 0 to 100,
the target offset equals (scrollHeight minus clientHeight) times pct/100 —
taking document.body.scrollHeight and window.innerHeight when the element
is the root html element and the elements own box otherwise — and the
arguments 150 and -10 yield the same targets as 100 and 0. -/
theorem scrollElementToPercentage_clamp_formula (el : ScrollTargetModel)
    (y : Option ℚ) :
    0 ≤ parsePercent y ∧ parsePercent y ≤ 100 ∧
    scrollTargetTop el y =
      (if el.isHtml then el.bodyScrollHeight - el.innerHeight
       else el.scrollHeight - el.clientHeight) * (parsePercent y / 100) ∧
    scrollTargetTop el (some 150) = scrollTargetTop el (some 100) ∧
    scrollTargetTop el (some (-10)) = scrollTargetTop el (some 0) := by
  refine ⟨?_, ?_, ?_, ?_, ?_⟩
  · cases y with
    | none => simp [parsePercent]
    | some n => exact le_max_left 0 _
  · cases y with
    | none => simp [parsePercent]
    | some n => exact max_le (by norm_num) (min_le_right n 100)
  · cases h : el.isHtml <;> simp [scrollTargetTop, h]
  · norm_num [scrollTargetTop, parsePercent]
  · norm_num [scrollTargetTop, parsePercent]

/-- C10: when the first argument of selectOption is missing or trims to the
empty string, the handler fails with the PlaywrightCommandException message
selectOption: missing option text and performs no page interaction at all
(the rest of the handler is never consulted). -/
theorem selectOption_missing_text_guard
    (rest : List (Option String) → List SelectEvent × Option CmdError)
    (args : List (Option String)) (h : selectWanted args = "") :
    selectOption rest args =
      ([], some (.playwrightCommand "selectOption: missing option text")) := by
  simp [selectOption, h]

/-- Witness for C10: a whitespace-only first argument, with a remainder
oracle that would click, never reached. -/
theorem selectOption_missing_text_guard_witness :
    selectWanted [some "   "] = "" ∧
    selectOption (fun _ => ([SelectEvent.click], none)) [some "   "] =
      ([], some (.playwrightCommand "selectOption: missing option text")) :=
  ⟨by decide, selectOption_missing_text_guard _ _ (by decide)⟩

/-- C3: when the target is combobox-like (role combobox on itself or an
ancestor, or aria-autocomplete list or both) fillOrType clears, fills, then
focuses the element and sends exactly Enter, ArrowDown, Enter; when it is
not combobox-like the trace is the two fills with no key event at all. -/
theorem fillOrType_commit_keys_iff_combobox (el : FillTarget)
    (args : List String) :
    (isComboboxLike el = true →
      fillOrType el args =
        [.fill "", .fill (args.headD ""), .focus, .press "Enter",
          .press "ArrowDown", .press "Enter"]) ∧
    (isComboboxLike el = false →
      fillOrType el args = [.fill "", .fill (args.headD "")] ∧
      ∀ e ∈ fillOrType el args, isKeyEvent e = false) := by
  refine ⟨fun h => by simp [fillOrType, h], fun h => ⟨by simp [fillOrType, h], ?_⟩⟩
  intro e he
  simp [fillOrType, h] at he
  rcases he with rfl | rfl <;> rfl

/-- Witness for C3: an element with role combobox gets the commit sequence;
a plain text input (no role, no aria-autocomplete, no combobox ancestor)
gets only the two fills. -/
theorem fillOrType_commit_keys_iff_combobox_witness :
    fillOrType ⟨some "combobox", none, false⟩ ["abc"] =
      [.fill "", .fill "abc", .focus, .press "Enter", .press "ArrowDown",
        .press "Enter"] ∧
    fillOrType ⟨none, none, false⟩ ["abc"] = [.fill "", .fill "abc"] :=
  ⟨(fillOrType_commit_keys_iff_combobox _ _).1 (by decide),
    ((fillOrType_commit_keys_iff_combobox _ _).2 (by decide)).1⟩

/-- C1 is refuted by this input: when a new tab with a non-blank URL is
caught by the race and the subsequent load-state wait rejects, the watcher
propagates that rejection to its caller instead of swallowing it (the
waitForLoadState call is outside any try/catch in the source). -/
theorem handlePossiblePageNavigation_raises_cex :
    (handlePossiblePageNavigation
      ⟨some ⟨"https://example.com"⟩, some "Timeout 30000ms exceeded.",
        none⟩).err = some "Timeout 30000ms exceeded." := by decide

/-- C1 as amended: the watcher returns normally whenever the load-state
wait does not reject (in particular every new-tab-race outcome and every
settled-DOM failure is swallowed), and any error that does escape is
exactly the rejection of the load-state wait performed after a new tab with
a non-blank URL was caught. -/
theorem handlePossiblePageNavigation_swallow_policy (sub : NavSubstrate) :
    (sub.loadStateErr = none → (handlePossiblePageNavigation sub).err = none) ∧
    ((handlePossiblePageNavigation sub).err ≠ none →
      ∃ t msg, sub.newTab = some t ∧ t.url ≠ "about:blank" ∧
        sub.loadStateErr = some msg ∧
        (handlePossiblePageNavigation sub).err = some msg) := by
  obtain ⟨tab, ls, se⟩ := sub
  constructor
  · rintro rfl
    cases tab with
    | none => rfl
    | some t =>
      by_cases h : t.url = "about:blank" <;>
        simp [handlePossiblePageNavigation, h]
  · intro h
    cases tab with
    | none => simp [handlePossiblePageNavigation] at h
    | some t =>
      by_cases hu : t.url = "about:blank"
      · simp [handlePossiblePageNavigation, hu] at h
      · cases ls with
        | none => simp [handlePossiblePageNavigation, hu] at h
        | some msg =>
          exact ⟨t, msg, rfl, hu, rfl,
            by simp [handlePossiblePageNavigation, hu]⟩

/-- Witness for C1 as amended: a failing settled-DOM wait alone is
swallowed, and the escaping error of the counterexample substrate is
exactly the load-state rejection after a non-blank new tab. -/
theorem handlePossiblePageNavigation_swallow_policy_witness :
    (handlePossiblePageNavigation
      ⟨some ⟨"https://example.com"⟩, none, some "settle timeout"⟩).err =
      none ∧
    ∃ t msg,
      (⟨some ⟨"https://example.com"⟩, some "boom", none⟩ :
          NavSubstrate).newTab = some t ∧
      t.url ≠ "about:blank" ∧
      (⟨some ⟨"https://example.com"⟩, some "boom", none⟩ :
          NavSubstrate).loadStateErr = some msg ∧
      (handlePossiblePageNavigation
        ⟨some ⟨"https://example.com"⟩, some "boom", none⟩).err = some msg :=
  ⟨(handlePossiblePageNavigation_swallow_policy _).1 rfl,
    (handlePossiblePageNavigation_swallow_policy _).2 (by decide)⟩

/-- C2 is refuted by this input: a new tab with a non-blank URL was caught
within the race window, yet the watcher performs no load-state wait on the
new tab — the only load-state wait it performs targets the original page
(stagehandPage.page in the source). -/
theorem nav_watcher_new_tab_wait_cex :
    (⟨some ⟨"https://example.com"⟩, none, none⟩ : NavSubstrate).newTab =
      some ⟨"https://example.com"⟩ ∧
    "https://example.com" ≠ "about:blank" ∧
    ((handlePossiblePageNavigation
        ⟨some ⟨"https://example.com"⟩, none, none⟩).events.filter
      (fun e => waitsOnNewTab e)) = [] ∧
    NavEvent.waitLoadState .original "domcontentloaded" ∈
      (handlePossiblePageNavigation
        ⟨some ⟨"https://example.com"⟩, none, none⟩).events := by decide

/-- C2 as amended: when a new tab opens within the 1500 ms race window with
a URL other than about:blank, the watcher waits for the ORIGINAL page to
reach the domcontentloaded load state before returning; it never waits on
the newly opened tab. -/
theorem nav_watcher_waits_original_page (sub : NavSubstrate) (t : TabModel)
    (h1 : sub.newTab = some t) (h2 : t.url ≠ "about:blank") :
    NavEvent.waitLoadState .original "domcontentloaded" ∈
      (handlePossiblePageNavigation sub).events ∧
    ∀ e ∈ (handlePossiblePageNavigation sub).events, waitsOnNewTab e = false
    := by
  obtain ⟨tab, ls, se⟩ := sub
  cases h1
  constructor
  · cases ls <;> simp [handlePossiblePageNavigation, h2]
  · cases ls <;>
      simp [handlePossiblePageNavigation, h2, waitsOnNewTab]

/-- Witness for C2 as amended, at a concrete non-blank new tab. -/
theorem nav_watcher_waits_original_page_witness :
    NavEvent.waitLoadState .original "domcontentloaded" ∈
      (handlePossiblePageNavigation
        ⟨some ⟨"https://news.test/page"⟩, none, none⟩).events :=
  (nav_watcher_waits_original_page _ ⟨"https://news.test/page"⟩ rfl
    (by decide)).1

/-- C9 is refuted by this input: the native click succeeds, yet clickElement
raises the error propagated out of the navigation check (the load-state
wait rejection), so a successful click does not guarantee that no error is
raised. -/
theorem clickElement_success_still_raises_cex :
    (⟨none, none, ⟨some ⟨"https://example.com"⟩, some "load failed", none⟩⟩ :
        ClickSubstrate).nativeErr = none ∧
    (clickElement
      ⟨none, none, ⟨some ⟨"https://example.com"⟩, some "load failed", none⟩⟩
      "/html/button").err = some (.fromNavigation "load failed") := by decide

/-- C9 as amended: the native click is always attempted first with a 3500 ms
timeout; the JS click is attempted exactly when the native click fails (on
native success no JS click appears in the trace); when both fail the run
raises StagehandClickError carrying the xpath and the underlying JS-click
failure message and performs no navigation check; and a ClickFailed error
occurs exactly when both clicks fail — after a successful click the only
error that can escape is the one propagated by the navigation watcher. -/
theorem clickElement_fallback_chain (sub : ClickSubstrate) (xpath : String) :
    (clickElement sub xpath).events.head? = some (.nativeClick 3500) ∧
    (sub.nativeErr = none →
      clickElement sub xpath =
        ⟨[ClickEvent.nativeClick 3500] ++
          (handlePossiblePageNavigation sub.nav).events.map .navCheck,
          (handlePossiblePageNavigation sub.nav).err.map .fromNavigation⟩ ∧
      ∀ t, ClickEvent.jsClick t ∉ (clickElement sub xpath).events) ∧
    (∀ e1, sub.nativeErr = some e1 → sub.jsErr = none →
      clickElement sub xpath =
        ⟨[ClickEvent.nativeClick 3500, ClickEvent.jsClick 3500] ++
          (handlePossiblePageNavigation sub.nav).events.map .navCheck,
          (handlePossiblePageNavigation sub.nav).err.map .fromNavigation⟩) ∧
    (∀ e1 e2, sub.nativeErr = some e1 → sub.jsErr = some e2 →
      clickElement sub xpath =
        ⟨[ClickEvent.nativeClick 3500, ClickEvent.jsClick 3500],
          some (.clickFailed xpath e2)⟩) ∧
    ((∃ m, (clickElement sub xpath).err = some (.clickFailed xpath m)) ↔
      (sub.nativeErr ≠ none ∧ sub.jsErr ≠ none)) := by
  obtain ⟨ne, je, nav⟩ := sub
  refine ⟨?_, ?_, ?_, ?_, ?_⟩
  · cases ne with
    | none => rfl
    | some e1 => cases je <;> rfl
  · rintro rfl
    refine ⟨rfl, fun t h => ?_⟩
    simp [clickElement] at h
  · rintro e1 rfl rfl
    rfl
  · rintro e1 e2 rfl rfl
    rfl
  · constructor
    · rintro ⟨m, hm⟩
      cases ne with
      | none =>
        exfalso
        simp [clickElement] at hm
      | some e1 =>
        cases je with
        | none =>
          exfalso
          simp [clickElement] at hm
        | some e2 => exact ⟨by simp, by simp⟩
    · rintro ⟨h1, h2⟩
      cases ne with
      | none => exact absurd rfl h1
      | some e1 =>
        cases je with
        | none => exact absurd rfl h2
        | some e2 => exact ⟨e2, rfl⟩

/-- Witness for C9 as amended: both clicks fail at a concrete substrate and
the ClickFailed error carries the JS failure message; at a substrate where
the native click succeeds no JS click is attempted. -/
theorem clickElement_fallback_chain_witness :
    clickElement ⟨some "native timeout", some "js blocked", ⟨none, none, none⟩⟩
        "/a/b" =
      ⟨[ClickEvent.nativeClick 3500, ClickEvent.jsClick 3500],
        some (.clickFailed "/a/b" "js blocked")⟩ ∧
    ClickEvent.jsClick 3500 ∉
      (clickElement ⟨none, none, ⟨none, none, none⟩⟩ "/a/b").events :=
  ⟨(clickElement_fallback_chain _ "/a/b").2.2.2.1 "native timeout"
      "js blocked" rfl rfl,
    ((clickElement_fallback_chain _ "/a/b").2.1 rfl).2 3500⟩

end Stagehand
